import Mathlib

/-!
Verification development for the Space Shooter game (`space_shooter.py`).

The Python source is shallowly embedded: pure fragments become Lean
functions, the mutable `Game` object becomes an explicit `Game` state
record threaded through the embedded methods.  Python `float` coordinates
are modelled as exact rationals (`ℚ`); Python `int` values as `Int`.
Rendering, fonts and audio are out of scope (the spec excludes them); the
embedded methods drop only those side effects (`draw`, `play_sound`,
`play_music`) and keep every state mutation of the source.
-/

namespace SpaceShooter

/-- Difficulty levels of the game (`self.difficulty ∈ {"easy","medium","hard"}`). -/
inductive Difficulty where
  | easy
  | medium
  | hard
deriving DecidableEq

/-- Screen states of the finite-state controller (`self.state`). -/
inductive Screen where
  | MAIN_MENU
  | DIFFICULTY_SELECT
  | CHARACTER_SELECT
  | SETTINGS
  | PLAYING
  | LEADERBOARD
  | NAME_ENTRY
  | PASSWORD_ENTRY
  | GAME_OVER
  | QUIT_CONFIRM
deriving DecidableEq

/-- A leaderboard entry `{"name": ..., "score": ...}`. -/
structure Entry where
  name : String
  score : Int
deriving DecidableEq

/-- The high-score table `self.high_scores`, one integer per difficulty. -/
structure HighScores where
  easy : Int
  medium : Int
  hard : Int
deriving DecidableEq

/-- Dictionary access `self.high_scores[difficulty]`. -/
def HighScores.get (h : HighScores) : Difficulty → Int
  | .easy => h.easy
  | .medium => h.medium
  | .hard => h.hard

/-- Dictionary update `self.high_scores[difficulty] = v`. -/
def HighScores.set (h : HighScores) : Difficulty → Int → HighScores
  | .easy, v => { h with easy := v }
  | .medium, v => { h with medium := v }
  | .hard, v => { h with hard := v }

/-- The leaderboards `self.leaderboards`, one entry list per difficulty. -/
structure Leaderboards where
  easy : List Entry
  medium : List Entry
  hard : List Entry
deriving DecidableEq

/-- Dictionary access `self.leaderboards[difficulty]`. -/
def Leaderboards.get (L : Leaderboards) : Difficulty → List Entry
  | .easy => L.easy
  | .medium => L.medium
  | .hard => L.hard

/-- Dictionary update `self.leaderboards[difficulty] = board`. -/
def Leaderboards.set (L : Leaderboards) : Difficulty → List Entry → Leaderboards
  | .easy, b => { L with easy := b }
  | .medium, b => { L with medium := b }
  | .hard, b => { L with hard := b }

/-! ### Geometry (pygame rectangles) -/

/-- A `pygame.Rect`: integer position and size. -/
structure Rect where
  x : Int
  y : Int
  w : Int
  h : Int
deriving DecidableEq

/-- Truncation of a Python float toward zero, as performed by `pygame.Rect`
when it is constructed from float coordinates. -/
def py_int (q : ℚ) : Int := if 0 ≤ q then ⌊q⌋ else -⌊-q⌋

/-- The overlap test `Rect.colliderect` of pygame: strict inequalities on
all four sides, so rectangles that merely touch do not collide. -/
def Rect.colliderect (a b : Rect) : Bool :=
  decide (a.x < b.x + b.w) && decide (a.y < b.y + b.h) &&
    decide (b.x < a.x + a.w) && decide (b.y < a.y + a.h)

/-- The point test `Rect.collidepoint` of pygame: left/top edges inclusive,
right/bottom edges exclusive. -/
def Rect.collidepoint (r : Rect) (px py : Int) : Bool :=
  decide (r.x ≤ px) && decide (px < r.x + r.w) &&
    decide (r.y ≤ py) && decide (py < r.y + r.h)

/-! ### Entities -/

/-- The player ship: position, speed and sprite size.  The sprite size is
asset-dependent (80-wide scaled image or the 64x64 fallback), so it is kept
as data.  Image/rendering fields are out of scope. -/
structure Player where
  x : ℚ
  y : ℚ
  speed : ℚ
  w : Int
  h : Int
deriving DecidableEq

/-- Collision rectangle of the player, `pygame.Rect(self.x, self.y, self.width, self.height)`. -/
def Player.get_rect (p : Player) : Rect := ⟨py_int p.x, py_int p.y, p.w, p.h⟩

/-- A bullet: position, fixed upward speed 7, asset-dependent size. -/
structure Bullet where
  x : ℚ
  y : ℚ
  speed : ℚ
  w : Int
  h : Int
deriving DecidableEq

/-- Bullet movement `self.y -= self.speed`. -/
def Bullet.update (b : Bullet) : Bullet := { b with y := b.y - b.speed }

/-- Bullet off-screen test `self.y < -self.height`. -/
def Bullet.is_off_screen (b : Bullet) : Bool := decide (b.y < -(b.h : ℚ))

/-- Collision rectangle of a bullet. -/
def Bullet.get_rect (b : Bullet) : Rect := ⟨py_int b.x, py_int b.y, b.w, b.h⟩

/-- An enemy: position, downward speed `2 * speed_multiplier`, asset-dependent size. -/
structure Enemy where
  x : ℚ
  y : ℚ
  speed : ℚ
  w : Int
  h : Int
deriving DecidableEq

/-- Enemy movement `self.y += self.speed`. -/
def Enemy.update (e : Enemy) : Enemy := { e with y := e.y + e.speed }

/-- Enemy off-screen test `self.y > SCREEN_HEIGHT` with `SCREEN_HEIGHT = 720`. -/
def Enemy.is_off_screen (e : Enemy) : Bool := decide ((720 : ℚ) < e.y)

/-- Collision rectangle of an enemy. -/
def Enemy.get_rect (e : Enemy) : Rect := ⟨py_int e.x, py_int e.y, e.w, e.h⟩

/-! ### Python string primitives used by the source -/

/-- Python slicing `s[:n]`: the first `n` characters of the string. -/
def py_take (s : String) (n : Nat) : String := ⟨s.data.take n⟩

/-- Python slicing `s[:-1]`: drop the last character; the empty string on
an empty input. -/
def py_drop_last (s : String) : String := ⟨s.data.dropLast⟩

/-- Python `str.strip()`: remove leading and trailing whitespace
(modelled on the whitespace characters recognised by `Char.isWhitespace`,
which covers the ASCII whitespace Python strips). -/
def py_strip (s : String) : String :=
  ⟨((s.data.dropWhile Char.isWhitespace).reverse.dropWhile Char.isWhitespace).reverse⟩

/-- Modelled from Python `str.upper()` on a single character.  The model
is exact on ASCII (lowercase letters map to their uppercase letter, every
other ASCII character to itself) and on the Latin special-casing
expansions implemented by CPython — the sharp s `'ß'` becomes the
two-character string `"SS"` and the Latin ligatures become their
multi-letter expansions (up to three characters, `'ﬃ'` → `"FFI"`).  Other
non-ASCII characters are mapped through `Char.toUpper`, which is not
CPython's full Unicode table; the theorems below therefore quantify typed
characters over ASCII, where this model is exact, and evaluate it outside
ASCII only at the characters special-cased here. -/
def py_upper_char (c : Char) : List Char :=
  if c = 'ß' then ['S', 'S']
  else if c = 'ﬀ' then ['F', 'F']
  else if c = 'ﬁ' then ['F', 'I']
  else if c = 'ﬂ' then ['F', 'L']
  else if c = 'ﬃ' then ['F', 'F', 'I']
  else if c = 'ﬄ' then ['F', 'F', 'L']
  else if c = 'ﬅ' then ['S', 'T']
  else if c = 'ﬆ' then ['S', 'T']
  else [c.toUpper]

/-- Python `str.upper()`: uppercase every character (a character may expand
to several characters, see `py_upper_char`). -/
def py_upper (s : String) : String := ⟨s.data.flatMap py_upper_char⟩

/-- Modelled from Python `str.isprintable()` on a single character.  The
model is exact on ASCII (printable exactly for codes 32–126) and on the
Latin-1 control characters and the no-break space (codes 127–160, not
printable).  Characters above that range are treated as printable, which
agrees with CPython at every such character this development evaluates it
at (the sharp s and the Latin ligatures are printable); the theorems
below quantify typed characters over ASCII, where the model is exact. -/
def py_is_printable (c : Char) : Bool :=
  decide (32 ≤ c.toNat) && decide (c.toNat ≠ 127) &&
    !(decide (128 ≤ c.toNat) && decide (c.toNat ≤ 160))

/-! ### Persistence gateway

The source serializes `self.high_scores` and `self.leaderboards` with
`json.dump` and reads them back with `json.load`
(`save_high_scores` / `load_high_scores` / `save_leaderboards` /
`load_leaderboards`).  The `json` module is external to the repository, so
the two backing files are modelled at the parsed-JSON-document level: a
file is `some j` when it exists and parses to the JSON value `j`, and
`none` when it is absent or unreadable (`open`/`json.load` raising, which
the source catches and turns into the defaults). -/

/-- A JSON value, the document form written by `json.dump` (the documents
of this program only carry integer numbers). -/
inductive Json where
  | null
  | bool (b : Bool)
  | num (n : Int)
  | str (s : String)
  | arr (elems : List Json)
  | obj (fields : List (String × Json))

/-- The JSON document of a high-score table. -/
def encode_high_scores (h : HighScores) : Json :=
  .obj [("easy", .num h.easy), ("medium", .num h.medium), ("hard", .num h.hard)]

/-- Reads a high-score table back out of its JSON document. -/
def decode_high_scores : Json → Option HighScores
  | .obj fields =>
    match fields.lookup ("easy"), fields.lookup ("medium"), fields.lookup ("hard") with
    | some (.num a), some (.num b), some (.num c) => some ⟨a, b, c⟩
    | _, _, _ => none
  | _ => none

/-- The JSON document of one leaderboard entry. -/
def encode_entry (e : Entry) : Json :=
  .obj [("name", .str e.name), ("score", .num e.score)]

/-- Reads a leaderboard entry back out of its JSON document. -/
def decode_entry : Json → Option Entry
  | .obj fields =>
    match fields.lookup ("name"), fields.lookup ("score") with
    | some (.str n), some (.num s) => some ⟨n, s⟩
    | _, _ => none
  | _ => none

/-- The JSON document of the leaderboards. -/
def encode_leaderboards (L : Leaderboards) : Json :=
  .obj [("easy", .arr (L.easy.map encode_entry)),
        ("medium", .arr (L.medium.map encode_entry)),
        ("hard", .arr (L.hard.map encode_entry))]

/-- Reads a list of leaderboard entries back out of a JSON array. -/
def decode_entries : List Json → Option (List Entry)
  | [] => some []
  | j :: js =>
    match decode_entry j, decode_entries js with
    | some e, some es => some (e :: es)
    | _, _ => none

/-- Reads the leaderboards back out of their JSON document. -/
def decode_leaderboards : Json → Option Leaderboards
  | .obj fields =>
    match fields.lookup ("easy"), fields.lookup ("medium"), fields.lookup ("hard") with
    | some (.arr a), some (.arr b), some (.arr c) =>
      match decode_entries a, decode_entries b, decode_entries c with
      | some ea, some eb, some ec => some ⟨ea, eb, ec⟩
      | _, _, _ => none
    | _, _, _ => none
  | _ => none

/-- Default high scores `{"easy": 0, "medium": 0, "hard": 0}`. -/
def default_high_scores : HighScores := ⟨0, 0, 0⟩

/-- Default leaderboards `{"easy": [], "medium": [], "hard": []}`. -/
def default_leaderboards : Leaderboards := ⟨[], [], []⟩

/-- `Game.save_high_scores`: unconditional full overwrite of the backing file. -/
def save_high_scores (h : HighScores) : Option Json := some (encode_high_scores h)

/-- `Game.load_high_scores`: the parsed file content, or the default
document when the file is absent or unreadable. -/
def load_high_scores (file : Option Json) : Json :=
  file.getD (encode_high_scores default_high_scores)

/-- `Game.save_leaderboards`: unconditional full overwrite of the backing file. -/
def save_leaderboards (L : Leaderboards) : Option Json := some (encode_leaderboards L)

/-- `Game.load_leaderboards`: the parsed file content, or the default
document when the file is absent or unreadable. -/
def load_leaderboards (file : Option Json) : Json :=
  file.getD (encode_leaderboards default_leaderboards)

/-! ### The game state -/

/-- The mutable state of the `Game` object that the embedded methods read
and write.  `player_w`/`player_h`/`enemy_w`/`enemy_h` are the
asset-dependent sprite sizes (fixed for a run of the program);
`high_scores_file`/`leaderboards_file` are the two backing JSON files.
UI-widget, clock and rendering fields are out of scope. -/
structure Game where
  state : Screen
  running : Bool
  game_over : Bool
  paused : Bool
  score : Int
  lives : Int
  difficulty : Difficulty
  game_speed_multiplier : ℚ
  high_scores : HighScores
  leaderboards : Leaderboards
  player_name : String
  entering_name : Bool
  name_error_message : String
  password_input : String
  password_error : String
  player : Option Player
  bullets : List Bullet
  enemies : List Enemy
  enemy_spawn_timer : Int
  enemy_spawn_delay : Int
  player_w : Int
  player_h : Int
  enemy_w : Int
  enemy_h : Int
  high_scores_file : Option Json
  leaderboards_file : Option Json

/-! ### Leaderboard operations -/

/-- Stable insertion of an entry into a descending-by-score list: the new
entry goes in front of the first entry whose score is `≤` its own, so
among equal scores earlier entries stay first.  `insert_desc` and
`sort_desc` together embed the stable
`list.sort(key=lambda x: x["score"], reverse=True)` of
`Game.add_to_leaderboard`. -/
def insert_desc (e : Entry) : List Entry → List Entry
  | [] => [e]
  | x :: xs => if x.score ≤ e.score then e :: x :: xs else x :: insert_desc e xs

/-- Stable sort by score, descending (Python `list.sort` with
`key=lambda x: x["score"], reverse=True`). -/
def sort_desc (l : List Entry) : List Entry := l.foldr insert_desc []

/-- `Game.add_to_leaderboard(name, score, difficulty)`: append the entry
with the name cut to 10 characters, sort descending by score, keep the top
10, persist. -/
def add_to_leaderboard (g : Game) (name : String) (score : Int) (d : Difficulty) : Game :=
  let entry : Entry := { name := py_take name 10, score := score }
  let board := sort_desc (g.leaderboards.get d ++ [entry])
  let board10 := board.take 10
  let lbs := g.leaderboards.set d board10
  { g with leaderboards := lbs, leaderboards_file := save_leaderboards lbs }

/-- `Game.validate_name(name)`: reject empty/whitespace-only names and
names already present (case-insensitively) in the active difficulty's
leaderboard; returns `(is_valid, error_message)`. -/
def validate_name (g : Game) (name : String) : Bool × String :=
  if name = ⟨[]⟩ ∨ py_strip name = ⟨[]⟩ then
    (false, "Please enter a name!")
  else if (g.leaderboards.get g.difficulty).any
      (fun e => decide (py_upper e.name = py_upper name)) then
    (false, "Username already taken!")
  else
    (true, ⟨[]⟩)

/-- `Game.clear_all_leaderboards()`: reset both documents to their
defaults and persist both. -/
def clear_all_leaderboards (g : Game) : Game :=
  { g with leaderboards := default_leaderboards,
           high_scores := default_high_scores,
           leaderboards_file := save_leaderboards default_leaderboards,
           high_scores_file := save_high_scores default_high_scores }

/-! ### Session start and end -/

/-- `Game.start_game()`: reset the session and apply the difficulty table.
The player is created at `(SCREEN_WIDTH // 2 - 40, SCREEN_HEIGHT - 120) =
(600, 600)` with speed 8. -/
def start_game (g : Game) : Game :=
  let g1 := { g with state := Screen.PLAYING, game_over := false,
                     paused := false, score := 0 }
  let g2 :=
    match g1.difficulty with
    | .easy => { g1 with lives := 7, game_speed_multiplier := (1.0 : ℚ) }
    | .medium => { g1 with lives := 5, game_speed_multiplier := (1.08 : ℚ) }
    | .hard => { g1 with lives := 3, game_speed_multiplier := (1.15 : ℚ) }
  { g2 with player := some { x := 600, y := 600, speed := 8, w := g2.player_w, h := g2.player_h },
            bullets := [], enemies := [], enemy_spawn_timer := 0 }

/-- Leaderboard qualification test of `Game.end_game`:
`len(leaderboard) < 10 or self.score > leaderboard[-1]["score"]`.  The
`none` branch of the match is unreachable: when the list is empty the
length test already succeeds (Python short-circuits before indexing). -/
def qualifies (board : List Entry) (score : Int) : Bool :=
  decide (board.length < 10) ||
    (match board.getLast? with
     | some e => decide (e.score < score)
     | none => false)

/-- `Game.end_game()`: set the game-over flag, update and persist the
all-time high score when exceeded, and route to NAME_ENTRY when the score
qualifies for the difficulty's leaderboard, else to GAME_OVER.  Music and
sound side effects are dropped. -/
def end_game (g : Game) : Game :=
  let g1 := { g with game_over := true }
  let g2 :=
    if g1.high_scores.get g1.difficulty < g1.score then
      let hs := g1.high_scores.set g1.difficulty g1.score
      { g1 with high_scores := hs, high_scores_file := save_high_scores hs }
    else g1
  if qualifies (g2.leaderboards.get g2.difficulty) g2.score then
    { g2 with entering_name := true, player_name := ⟨[]⟩,
              name_error_message := ⟨[]⟩, state := Screen.NAME_ENTRY }
  else
    { g2 with state := Screen.GAME_OVER }

/-! ### Gameplay tick -/

/-- Life loss, the sequence `self.lives -= 1; if self.lives <= 0:
self.end_game()` that appears verbatim at both decrement sites of the
source (enemy passing the bottom in `update_game`, player collision in
`check_collisions`; the latter only plays a sound in between). -/
def lose_life (g : Game) : Game :=
  let g1 := { g with lives := g.lives - 1 }
  if g1.lives ≤ 0 then end_game g1 else g1

/-- First enemy of the list whose rectangle collides with `r`: `some` of
the list with that enemy removed, or `none` when no enemy collides.  This
is the `for ... if ...colliderect...: remove; break` pattern of
`Game.check_collisions`. -/
def remove_first_hit (r : Rect) : List Enemy → Option (List Enemy)
  | [] => none
  | e :: es =>
    if r.colliderect e.get_rect then some es
    else (remove_first_hit r es).map (fun es2 => e :: es2)

/-- Bullet half of `Game.check_collisions`: each bullet in turn is checked
against the current enemies; on the first hit the bullet and that enemy
are removed, the score grows by 10, and no further enemies are checked for
that bullet.  Returns the remaining bullets, remaining enemies and new
score. -/
def bullet_phase : List Bullet → List Enemy → Int → List Bullet × List Enemy × Int
  | [], es, score => ([], es, score)
  | b :: bs, es, score =>
    match remove_first_hit b.get_rect es with
    | some es2 => bullet_phase bs es2 (score + 10)
    | none =>
      let r := bullet_phase bs es score
      (b :: r.1, r.2.1, r.2.2)

/-- `Game.check_collisions()`: the bullet phase, then at most one
player-enemy collision (the loop breaks after the first), which removes
the enemy and costs a life. -/
def check_collisions (g : Game) : Game :=
  let r := bullet_phase g.bullets g.enemies g.score
  let g1 := { g with bullets := r.1, enemies := r.2.1, score := r.2.2 }
  match g1.player with
  | none => g1
  | some p =>
    match remove_first_hit p.get_rect g1.enemies with
    | some es => lose_life { g1 with enemies := es }
    | none => g1

/-- `Game.spawn_enemy()` with the random horizontal offset made explicit:
a fresh enemy at `(x, -height)` with speed `2 * speed_multiplier`. -/
def spawn_enemy (x : ℚ) (mult : ℚ) (w h : Int) : Enemy :=
  { x := x, y := -(h : ℚ), speed := 2 * mult, w := w, h := h }

/-- Enemy pass of `Game.update_game`: each enemy moves down; an enemy past
the bottom is removed and costs a life (`lose_life`, which may run the
game-over sequence without stopping the loop); survivors are kept in
order. -/
def enemy_pass (g : Game) (survivors : List Enemy) : List Enemy → Game
  | [] => { g with enemies := survivors }
  | e :: es =>
    let e1 := e.update
    if e1.is_off_screen then enemy_pass (lose_life g) survivors es
    else enemy_pass g (survivors ++ [e1]) es

/-- `Game.update_game()` for one tick, with the random horizontal offset
of a spawned enemy passed in as `spawn_x`: move and discard bullets, run
the enemy pass, advance the spawn timer (spawning when it reaches the
delay), then resolve collisions. -/
def update_game (g : Game) (spawn_x : ℚ) : Game :=
  if g.game_over then g
  else
    let g1 := { g with bullets :=
      (g.bullets.map Bullet.update).filter (fun b => !b.is_off_screen) }
    let g2 := enemy_pass g1 [] g1.enemies
    let g3 := { g2 with enemy_spawn_timer := g2.enemy_spawn_timer + 1 }
    let g4 :=
      if g3.enemy_spawn_delay ≤ g3.enemy_spawn_timer then
        { g3 with enemies := g3.enemies ++
                    [spawn_enemy spawn_x g3.game_speed_multiplier g3.enemy_w g3.enemy_h],
                  enemy_spawn_timer := 0 }
      else g3
    check_collisions g4

/-! ### NAME_ENTRY and PASSWORD_ENTRY submission -/

/-- Submission of the entered name (the SUBMIT click of
`Game.handle_mouse_click` in state NAME_ENTRY; the RETURN branch of
`Game.handle_events` is identical): a valid name is added to the
leaderboard and the state moves to GAME_OVER; an invalid one only sets the
inline error message. -/
def submit_name (g : Game) : Game :=
  let v := validate_name g g.player_name
  if v.1 then
    let g1 := add_to_leaderboard g g.player_name g.score g.difficulty
    { g1 with entering_name := false, state := Screen.GAME_OVER }
  else
    { g with name_error_message := v.2 }

/-- Submission of the entered password (the SUBMIT click of
`Game.handle_mouse_click` in state PASSWORD_ENTRY; the RETURN branch of
`Game.handle_events` is identical): the fixed credential clears all
leaderboards and high scores and returns to LEADERBOARD; anything else
only sets the error message. -/
def submit_password (g : Game) : Game :=
  if g.password_input = "admin123" then
    let g1 := clear_all_leaderboards g
    { g1 with password_input := ⟨[]⟩, password_error := ⟨[]⟩,
              state := Screen.LEADERBOARD }
  else
    { g with password_error := "Incorrect password!" }

/-! ### NAME_ENTRY key handling -/

/-- A key event as seen by the NAME_ENTRY branch of `Game.handle_events`:
RETURN, BACKSPACE, or any other key carrying its `event.unicode`
character. -/
inductive KeyEvent where
  | ret
  | backspace
  | ch (c : Char)

/-- Effect of one key event on the in-progress `self.player_name`
(NAME_ENTRY branch of `Game.handle_events`): BACKSPACE drops the last
character, a printable character is appended uppercased while the name is
shorter than 10 characters, everything else leaves the name unchanged
(RETURN submits but never edits the name). -/
def name_entry_key (name : String) : KeyEvent → String
  | .ret => name
  | .backspace => py_drop_last name
  | .ch c =>
    if decide (name.length < 10) && py_is_printable c then
      ⟨name.data ++ py_upper_char c⟩
    else name

/-- The in-progress name after a sequence of key events, starting from the
empty name set by `Game.end_game`. -/
def run_name_entry (events : List KeyEvent) : String :=
  events.foldl name_entry_key ⟨[]⟩

/-! ### The Dropdown widget -/

/-- The state of a `Dropdown` widget: main box rectangle, options, the
selected index, whether the option list is unfolded, and the option
rectangles (laid out below the main box by `draw`). -/
structure Dropdown where
  rect : Rect
  options : List String
  selected_index : Nat
  is_open : Bool
  option_rects : List Rect
deriving DecidableEq

/-- `Dropdown.handle_click(mouse_pos)`: a click on the main box toggles
open/closed and returns `false`; while open, a click on the first matching
option rectangle selects that option, closes the dropdown and returns
`true`; any other click while open closes the dropdown and returns
`false`. -/
def Dropdown.handle_click (d : Dropdown) (mx my : Int) : Dropdown × Bool :=
  if d.rect.collidepoint mx my then
    ({ d with is_open := !d.is_open }, false)
  else if d.is_open then
    match d.option_rects.findIdx? (fun r => r.collidepoint mx my) with
    | some i => ({ d with selected_index := i, is_open := false }, true)
    | none => ({ d with is_open := false }, false)
  else
    (d, false)

/-! ### Helper lemmas -/

theorem high_scores_get_set_self (h : HighScores) (d : Difficulty) (v : Int) :
    (h.set d v).get d = v := by
  cases d <;> rfl

theorem leaderboards_get_set_self (L : Leaderboards) (d : Difficulty) (b : List Entry) :
    (L.set d b).get d = b := by
  cases d <;> rfl

theorem qualifies_iff (board : List Entry) (score : Int) :
    qualifies board score = true ↔
      (board.length < 10 ∨ ∃ e, board.getLast? = some e ∧ e.score < score) := by
  unfold qualifies
  cases h : board.getLast? <;> simp [h]

/-- A convenient concrete game state used to instantiate theorems; its
fields mirror the `Game.__init__` defaults of the source. -/
def base_game : Game where
  state := Screen.MAIN_MENU
  running := true
  game_over := false
  paused := false
  score := 0
  lives := 5
  difficulty := Difficulty.medium
  game_speed_multiplier := 1
  high_scores := default_high_scores
  leaderboards := default_leaderboards
  player_name := ⟨[]⟩
  entering_name := false
  name_error_message := ⟨[]⟩
  password_input := ⟨[]⟩
  password_error := ⟨[]⟩
  player := none
  bullets := []
  enemies := []
  enemy_spawn_timer := 0
  enemy_spawn_delay := 60
  player_w := 64
  player_h := 64
  enemy_w := 64
  enemy_h := 64
  high_scores_file := none
  leaderboards_file := none

/-! ### C6: difficulty table of `start_game` -/

/-- C6: for every difficulty, `start_game` sets the starting lives and
speed multiplier exactly per the declared table (easy 7/1.0, medium
5/1.08, hard 3/1.15), resets the score to 0 and clears bullets, enemies
and the spawn timer. -/
theorem start_game_difficulty_table (g : Game) :
    (start_game g).lives =
      (match g.difficulty with | .easy => 7 | .medium => 5 | .hard => 3)
    ∧ (start_game g).game_speed_multiplier =
      (match g.difficulty with
       | .easy => (1.0 : ℚ) | .medium => (1.08 : ℚ) | .hard => (1.15 : ℚ))
    ∧ (start_game g).score = 0
    ∧ (start_game g).bullets = []
    ∧ (start_game g).enemies = []
    ∧ (start_game g).enemy_spawn_timer = 0 := by
  cases hd : g.difficulty <;> simp [start_game, hd]

/-! ### C4: routing of `end_game` -/

/-- C4: `end_game` raises the stored high score for the current difficulty
exactly when the session score exceeds it, and routes to NAME_ENTRY
exactly when the difficulty's leaderboard has fewer than 10 entries or the
score exceeds the last (lowest) entry's score, else to GAME_OVER; in
particular an ended hard session with score 50 and an empty hard
leaderboard routes to NAME_ENTRY. -/
theorem end_game_routing (g : Game) :
    ((end_game g).high_scores.get g.difficulty =
      if g.high_scores.get g.difficulty < g.score then g.score
      else g.high_scores.get g.difficulty)
    ∧ ((end_game g).state = Screen.NAME_ENTRY ↔
      ((g.leaderboards.get g.difficulty).length < 10 ∨
        ∃ e, (g.leaderboards.get g.difficulty).getLast? = some e ∧ e.score < g.score))
    ∧ ((end_game g).state = Screen.NAME_ENTRY ∨ (end_game g).state = Screen.GAME_OVER)
    ∧ (g.difficulty = Difficulty.hard → g.score = 50 → g.leaderboards.hard = [] →
        (end_game g).state = Screen.NAME_ENTRY) := by
  refine ⟨?_, ?_, ?_, ?_⟩
  · simp only [end_game]
    split_ifs <;> simp_all [high_scores_get_set_self]
  · simp only [end_game]
    split_ifs <;> simp_all [qualifies_iff]
  · simp only [end_game]
    split_ifs <;> simp
  · intro hd hs hb
    simp only [end_game]
    split_ifs <;> simp_all [qualifies_iff, Leaderboards.get]

/-- Witness for `end_game_routing`: the hard/50/empty-leaderboard scenario
routes to NAME_ENTRY. -/
theorem end_game_routing_witness :
    (end_game { base_game with difficulty := Difficulty.hard, score := 50 }).state =
      Screen.NAME_ENTRY :=
  (end_game_routing { base_game with difficulty := Difficulty.hard, score := 50 }).2.2.2
    rfl rfl rfl

/-- Witness for `start_game_difficulty_table` on the easy difficulty. -/
theorem start_game_difficulty_table_witness :
    (start_game { base_game with difficulty := Difficulty.easy }).lives = 7 :=
  (start_game_difficulty_table { base_game with difficulty := Difficulty.easy }).1

/-! ### C7: the password-gated reset -/

/-- C7: submitting the fixed credential on the PASSWORD_ENTRY screen
resets both leaderboards and high scores to their defaults, persists both
files, and moves to LEADERBOARD; any other input only sets the error
message and leaves the state, the leaderboards, the high scores and both
files unchanged. -/
theorem password_entry_gate (g : Game) (hst : g.state = Screen.PASSWORD_ENTRY) :
    (g.password_input = "admin123" →
      (submit_password g).leaderboards = default_leaderboards
      ∧ (submit_password g).high_scores = default_high_scores
      ∧ (submit_password g).leaderboards_file = some (encode_leaderboards default_leaderboards)
      ∧ (submit_password g).high_scores_file = some (encode_high_scores default_high_scores)
      ∧ (submit_password g).state = Screen.LEADERBOARD)
    ∧ (g.password_input ≠ "admin123" →
      (submit_password g).state = Screen.PASSWORD_ENTRY
      ∧ (submit_password g).leaderboards = g.leaderboards
      ∧ (submit_password g).high_scores = g.high_scores
      ∧ (submit_password g).leaderboards_file = g.leaderboards_file
      ∧ (submit_password g).high_scores_file = g.high_scores_file
      ∧ (submit_password g).password_error = "Incorrect password!") := by
  constructor
  · intro hpw
    simp [submit_password, clear_all_leaderboards, save_leaderboards, save_high_scores, hpw]
  · intro hpw
    simp [submit_password, hpw, hst]

/-- Witness for `password_entry_gate` at a concrete state with the correct
credential. -/
theorem password_entry_gate_witness :
    (submit_password { base_game with state := Screen.PASSWORD_ENTRY,
                                      password_input := "admin123" }).state = Screen.LEADERBOARD :=
  ((password_entry_gate _ rfl).1 rfl).2.2.2.2

/-! ### C8: persistence round-trip -/

theorem decode_encode_entry (e : Entry) : decode_entry (encode_entry e) = some e := rfl

theorem decode_entries_encode (l : List Entry) :
    decode_entries (l.map encode_entry) = some l := by
  induction l with
  | nil => rfl
  | cons e t ih => simp [decode_entries, decode_encode_entry, ih]

/-- C8: saving the high-score or leaderboard document and loading it back
yields the identical structure (the document decodes back to exactly what
was saved), and loading from an absent or unreadable file yields the
default documents. -/
theorem persistence_round_trip :
    (∀ h : HighScores,
      load_high_scores (save_high_scores h) = encode_high_scores h
      ∧ decode_high_scores (encode_high_scores h) = some h)
    ∧ (∀ L : Leaderboards,
      load_leaderboards (save_leaderboards L) = encode_leaderboards L
      ∧ decode_leaderboards (encode_leaderboards L) = some L)
    ∧ load_high_scores none = encode_high_scores default_high_scores
    ∧ load_leaderboards none = encode_leaderboards default_leaderboards := by
  refine ⟨fun h => ⟨rfl, rfl⟩, fun L => ⟨rfl, ?_⟩, rfl, rfl⟩
  simp [encode_leaderboards, decode_leaderboards, decode_entries_encode, List.lookup]

/-- Witness for `persistence_round_trip` at a concrete high-score table. -/
theorem persistence_round_trip_witness :
    decode_high_scores (encode_high_scores ⟨3, 5, 7⟩) = some ⟨3, 5, 7⟩ :=
  (persistence_round_trip.1 ⟨3, 5, 7⟩).2

/-! ### C3: leaderboard insertion invariant -/

/-- A list of entries sorted descending by score. -/
def sorted_desc (l : List Entry) : Prop :=
  l.Pairwise (fun a b => b.score ≤ a.score)

theorem mem_insert_desc {a e : Entry} {l : List Entry} :
    a ∈ insert_desc e l ↔ a = e ∨ a ∈ l := by
  induction l with
  | nil => simp [insert_desc]
  | cons x xs ih =>
    by_cases hx : x.score ≤ e.score <;> simp [insert_desc, hx, ih] <;> tauto

theorem insert_desc_sorted {e : Entry} {l : List Entry} (h : sorted_desc l) :
    sorted_desc (insert_desc e l) := by
  induction l with
  | nil => simp [insert_desc, sorted_desc]
  | cons x xs ih =>
    rcases List.pairwise_cons.mp h with ⟨hx, hxs⟩
    by_cases hc : x.score ≤ e.score
    · simp only [insert_desc, hc, if_pos]
      refine List.pairwise_cons.mpr ⟨?_, h⟩
      intro b hb
      rcases List.mem_cons.mp hb with hb | hb
      · exact hb ▸ hc
      · exact le_trans (hx b hb) hc
    · simp only [insert_desc, hc, if_neg, not_false_iff]
      refine List.pairwise_cons.mpr ⟨?_, ih hxs⟩
      intro b hb
      rcases mem_insert_desc.mp hb with hb | hb
      · exact hb ▸ le_of_lt (lt_of_not_le hc)
      · exact hx b hb

theorem sort_desc_sorted (l : List Entry) : sorted_desc (sort_desc l) := by
  induction l with
  | nil => simp [sort_desc, sorted_desc]
  | cons x xs ih => exact insert_desc_sorted ih

theorem mem_sort_desc {a : Entry} {l : List Entry} :
    a ∈ sort_desc l ↔ a ∈ l := by
  induction l with
  | nil => simp [sort_desc]
  | cons x xs ih =>
    show a ∈ insert_desc x (sort_desc xs) ↔ _
    rw [mem_insert_desc]
    simp [ih, eq_comm]

theorem py_take_length (s : String) (n : Nat) : (py_take s n).length ≤ n := by
  show (s.data.take n).length ≤ n
  exact List.length_take_le n s.data

/-- C3: after `add_to_leaderboard`, the stored list for that difficulty is
sorted descending by score and has at most 10 entries, and every entry it
stores is either an old entry or carries a name of at most 10
characters. -/
theorem add_to_leaderboard_invariant (g : Game) (name : String) (score : Int)
    (d : Difficulty) :
    sorted_desc ((add_to_leaderboard g name score d).leaderboards.get d)
    ∧ ((add_to_leaderboard g name score d).leaderboards.get d).length ≤ 10
    ∧ ∀ e ∈ (add_to_leaderboard g name score d).leaderboards.get d,
        e ∈ g.leaderboards.get d ∨ e.name.length ≤ 10 := by
  have hb : (add_to_leaderboard g name score d).leaderboards.get d =
      (sort_desc (g.leaderboards.get d ++ [⟨py_take name 10, score⟩])).take 10 := by
    simp [add_to_leaderboard, leaderboards_get_set_self]
  refine ⟨?_, ?_, ?_⟩
  · rw [hb]
    exact (sort_desc_sorted _).sublist (List.take_sublist _ _)
  · rw [hb]
    simpa using List.length_take_le 10 _
  · intro e he
    rw [hb] at he
    have he2 := mem_sort_desc.mp (List.take_subset _ _ he)
    rcases List.mem_append.mp he2 with h | h
    · exact Or.inl h
    · right
      rcases List.mem_singleton.mp h with rfl
      exact py_take_length name 10

/-- Witness for `add_to_leaderboard_invariant` at a concrete insertion. -/
theorem add_to_leaderboard_invariant_witness :
    sorted_desc ((add_to_leaderboard base_game "PLAYERNAME!" 50
      Difficulty.hard).leaderboards.get Difficulty.hard) :=
  (add_to_leaderboard_invariant base_game _ 50 Difficulty.hard).1

/-! ### C5: NAME_ENTRY validation -/

theorem validate_name_rejects_blank {g : Game} {name : String}
    (h : py_strip name = ⟨[]⟩) :
    validate_name g name = (false, "Please enter a name!") := by
  unfold validate_name
  rw [if_pos (Or.inr h)]

theorem validate_name_rejects_dup {g : Game} {name : String}
    (hne : ¬(name = ⟨[]⟩ ∨ py_strip name = ⟨[]⟩))
    (hdup : ∃ e ∈ g.leaderboards.get g.difficulty, py_upper e.name = py_upper name) :
    validate_name g name = (false, "Username already taken!") := by
  have hany : (g.leaderboards.get g.difficulty).any
      (fun e => decide (py_upper e.name = py_upper name)) = true := by
    rcases hdup with ⟨e, he, hp⟩
    exact List.any_eq_true.mpr ⟨e, he, decide_eq_true hp⟩
  unfold validate_name
  rw [if_neg hne, if_pos hany]

theorem validate_name_accepts {g : Game} {name : String}
    (hblank : ¬ py_strip name = ⟨[]⟩)
    (hnodup : ∀ e ∈ g.leaderboards.get g.difficulty, py_upper e.name ≠ py_upper name) :
    validate_name g name = (true, ⟨[]⟩) := by
  have hne : ¬(name = ⟨[]⟩ ∨ py_strip name = ⟨[]⟩) := by
    rintro (h | h)
    · exact hblank (by rw [h]; rfl)
    · exact hblank h
  have hany : (g.leaderboards.get g.difficulty).any
      (fun e => decide (py_upper e.name = py_upper name)) = false := by
    simp only [List.any_eq_false, decide_eq_true_eq]
    exact hnodup
  unfold validate_name
  rw [if_neg hne, if_neg (by simp [hany])]

/-- C5: on the NAME_ENTRY screen, an empty or whitespace-only name, or a
name already present case-insensitively in the active difficulty's
leaderboard, is rejected — an inline error message is set, the state stays
NAME_ENTRY and the leaderboards are unchanged; a valid name is inserted
and the state moves to GAME_OVER. -/
theorem name_entry_validation (g : Game) (hst : g.state = Screen.NAME_ENTRY) :
    (py_strip g.player_name = ⟨[]⟩ →
      (submit_name g).state = Screen.NAME_ENTRY
      ∧ (submit_name g).leaderboards = g.leaderboards
      ∧ (submit_name g).name_error_message ≠ ⟨[]⟩)
    ∧ ((∃ e ∈ g.leaderboards.get g.difficulty,
          py_upper e.name = py_upper g.player_name) →
      (submit_name g).state = Screen.NAME_ENTRY
      ∧ (submit_name g).leaderboards = g.leaderboards
      ∧ (submit_name g).name_error_message ≠ ⟨[]⟩)
    ∧ (¬ py_strip g.player_name = ⟨[]⟩ →
      (∀ e ∈ g.leaderboards.get g.difficulty,
          py_upper e.name ≠ py_upper g.player_name) →
      (submit_name g).state = Screen.GAME_OVER
      ∧ (submit_name g).leaderboards =
          (add_to_leaderboard g g.player_name g.score g.difficulty).leaderboards) := by
  refine ⟨?_, ?_, ?_⟩
  · intro htrim
    have hv := validate_name_rejects_blank (g := g) htrim
    refine ⟨?_, ?_, ?_⟩ <;> simp [submit_name, hv, hst]
  · intro hdup
    by_cases hemp : (g.player_name = ⟨[]⟩ ∨ py_strip g.player_name = ⟨[]⟩)
    · have hv : validate_name g g.player_name = (false, "Please enter a name!") := by
        unfold validate_name
        rw [if_pos hemp]
      refine ⟨?_, ?_, ?_⟩ <;> simp [submit_name, hv, hst]
    · have hv := validate_name_rejects_dup hemp hdup
      refine ⟨?_, ?_, ?_⟩ <;> simp [submit_name, hv, hst]
  · intro hblank hnodup
    have hv := validate_name_accepts hblank hnodup
    exact ⟨by simp [submit_name, hv], by simp [submit_name, hv]⟩

/-- Witness for `name_entry_validation`: a fresh two-letter name on an
empty leaderboard is accepted and routes to GAME_OVER. -/
theorem name_entry_validation_witness :
    (submit_name { base_game with state := Screen.NAME_ENTRY,
                                  player_name := "AB" }).state = Screen.GAME_OVER :=
  ((name_entry_validation _ rfl).2.2 (by decide) (by simp [base_game, Leaderboards.get,
    default_leaderboards])).1

/-! ### C2: bullet-enemy collision resolution -/

theorem remove_first_hit_skip {r : Rect} {es1 es2 : List Enemy} {e : Enemy}
    (h1 : ∀ e2 ∈ es1, r.colliderect e2.get_rect = false)
    (h2 : r.colliderect e.get_rect = true) :
    remove_first_hit r (es1 ++ e :: es2) = some (es1 ++ es2) := by
  induction es1 with
  | nil => simp [remove_first_hit, h2]
  | cons x xs ih =>
    have hx := h1 x (List.mem_cons_self x xs)
    have ih2 := ih (fun e2 he => h1 e2 (List.mem_cons_of_mem x he))
    simp [remove_first_hit, hx, ih2]

theorem remove_first_hit_none {r : Rect} {es : List Enemy}
    (h : ∀ e2 ∈ es, r.colliderect e2.get_rect = false) :
    remove_first_hit r es = none := by
  induction es with
  | nil => rfl
  | cons x xs ih =>
    have hx := h x (List.mem_cons_self x xs)
    have ih2 := ih (fun e2 he => h e2 (List.mem_cons_of_mem x he))
    simp [remove_first_hit, hx, ih2]

/-- C2: in the collision pass, a bullet is checked against the enemies in
order; when the first intersecting enemy is `e` (no earlier enemy
intersects), the bullet and exactly that enemy are removed, the score
grows by exactly 10, and the pass goes on with the remaining bullets — so
a bullet meeting one enemy removes both for 10 points, and a bullet
meeting several removes only the first (first-match-wins, no double
removal); a bullet meeting no enemy survives and changes nothing. -/
theorem bullet_collision_resolution :
    (∀ (b : Bullet) (bs : List Bullet) (es1 es2 : List Enemy) (e : Enemy) (score : Int),
      (∀ e2 ∈ es1, b.get_rect.colliderect e2.get_rect = false) →
      b.get_rect.colliderect e.get_rect = true →
      bullet_phase (b :: bs) (es1 ++ e :: es2) score = bullet_phase bs (es1 ++ es2) (score + 10))
    ∧ (∀ (b : Bullet) (bs : List Bullet) (es : List Enemy) (score : Int),
      (∀ e2 ∈ es, b.get_rect.colliderect e2.get_rect = false) →
      bullet_phase (b :: bs) es score =
        (b :: (bullet_phase bs es score).1, (bullet_phase bs es score).2.1,
          (bullet_phase bs es score).2.2)) := by
  constructor
  · intro b bs es1 es2 e score h1 h2
    simp [bullet_phase, remove_first_hit_skip h1 h2]
  · intro b bs es score h
    simp [bullet_phase, remove_first_hit_none h]

/-- Witness for `bullet_collision_resolution`: a single bullet over two
overlapping enemies removes only the first one and scores 10. -/
theorem bullet_collision_resolution_witness :
    bullet_phase [(⟨0, 0, 7, 8, 32⟩ : Bullet)]
      [(⟨0, 0, 2, 64, 64⟩ : Enemy), (⟨4, 0, 2, 64, 64⟩ : Enemy)] 0 =
      bullet_phase [] [(⟨4, 0, 2, 64, 64⟩ : Enemy)] 10 :=
  bullet_collision_resolution.1 ⟨0, 0, 7, 8, 32⟩ [] [] [⟨4, 0, 2, 64, 64⟩]
    ⟨0, 0, 2, 64, 64⟩ 0 (by simp)
    (by norm_num [Bullet.get_rect, Enemy.get_rect, py_int, Rect.colliderect])

/-! ### C9: the dropdown commit flag -/

/-- The settings dropdown of the source in its open state: main box at
`(0, 0)` sized `100 x 40`, two options laid out below it, the first option
currently selected. -/
def dropdown_open : Dropdown where
  rect := ⟨0, 0, 100, 40⟩
  options := ["Laser", "Explosion"]
  selected_index := 0
  is_open := true
  option_rects := [⟨0, 40, 100, 40⟩, ⟨0, 80, 100, 40⟩]

/-- C9 evaluation: clicking the already-selected first option makes
`handle_click` return `true` even though the selected index is unchanged —
the return value reports "an option was clicked", not "the selection
changed" as the method's docstring and the spec state. -/
theorem dropdown_reselect_returns_true :
    (dropdown_open.handle_click 10 50).2 = true
    ∧ (dropdown_open.handle_click 10 50).1.selected_index = dropdown_open.selected_index := by
  decide

/-! ### C1: the lives counter -/

theorem end_game_lives (g : Game) : (end_game g).lives = g.lives := by
  simp only [end_game]
  split_ifs <;> rfl

theorem end_game_game_over (g : Game) : (end_game g).game_over = true := by
  simp only [end_game]
  split_ifs <;> rfl

theorem end_game_state_cases (g : Game) :
    (end_game g).state = Screen.NAME_ENTRY ∨ (end_game g).state = Screen.GAME_OVER := by
  simp only [end_game]
  split_ifs <;> simp

/-- C1 (amended): one life-loss operation — the decrement sequence shared
by the enemy-passes-bottom site of `update_game` and the player-collision
site of `check_collisions` — removes exactly one life, leaves the counter
non-negative whenever it was positive, and runs the game-over sequence
(routing to NAME_ENTRY or GAME_OVER) exactly when the counter reaches
zero. -/
theorem lives_decrement_safe (g : Game) (h0 : g.game_over = false) (h1 : 1 ≤ g.lives) :
    (lose_life g).lives = g.lives - 1
    ∧ 0 ≤ (lose_life g).lives
    ∧ ((lose_life g).game_over = true ↔ (lose_life g).lives = 0)
    ∧ ((lose_life g).lives = 0 →
        (lose_life g).state = Screen.NAME_ENTRY ∨ (lose_life g).state = Screen.GAME_OVER) := by
  simp only [lose_life]
  split_ifs with hc
  · have hc2 : g.lives - 1 ≤ 0 := hc
    have hz : g.lives - 1 = 0 := by omega
    have h3 := end_game_game_over { g with lives := g.lives - 1 }
    have h4 := end_game_state_cases { g with lives := g.lives - 1 }
    have h2 : (end_game { g with lives := g.lives - 1 }).lives = g.lives - 1 :=
      end_game_lives { g with lives := g.lives - 1 }
    refine ⟨h2, by rw [h2]; omega, ?_, fun _ => h4⟩
    rw [h3, h2]
    simp [hz]
  · have hc2 : ¬(g.lives - 1 ≤ 0) := hc
    refine ⟨rfl, by show 0 ≤ g.lives - 1; omega, ?_, ?_⟩
    · constructor
      · intro h
        have h2 : g.game_over = true := h
        rw [h0] at h2
        cases h2
      · intro h
        have h2 : g.lives - 1 = 0 := h
        exact absurd h2 (by omega)
    · intro h
      have h2 : g.lives - 1 = 0 := h
      exact absurd h2 (by omega)

/-- Witness for `lives_decrement_safe` at three lives. -/
theorem lives_decrement_safe_witness :
    (lose_life { base_game with state := Screen.PLAYING, lives := 3 }).lives = 3 - 1 :=
  (lives_decrement_safe { base_game with state := Screen.PLAYING, lives := 3 }
    rfl (by decide)).1

/-- C1 counterexample: a tick of `update_game` in which one enemy crosses
the bottom boundary (dropping lives from 1 to 0 and running the game-over
sequence) and, in the same tick, another enemy overlaps the player in
`check_collisions` (neither loop is stopped by game over), leaves the
lives counter at -1.  The state is consistent with easy-difficulty play:
the two enemies sit exactly one spawn period apart (60 ticks at speed 2 =
120 pixels, at even heights 720 and 600 reached from the spawn height
-64), the player is at its starting position `(600, 600)` with the second
enemy spawned at the same horizontal offset, the spawn timer holds
`392 % 60 = 32` ticks after the first enemy's spawn, one life is left
after six earlier losses, and the score records six earlier kills. -/
theorem update_game_two_losses_negative :
    (update_game { base_game with state := Screen.PLAYING, lives := 1, score := 60,
                                  difficulty := Difficulty.easy,
                                  player := some ⟨600, 600, 8, 64, 64⟩,
                                  enemies := [⟨0, 720, 2, 64, 64⟩, ⟨600, 600, 2, 64, 64⟩],
                                  enemy_spawn_timer := 32 }
        0).lives = -1 := by
  norm_num [update_game, enemy_pass, lose_life, end_game, check_collisions, bullet_phase,
    remove_first_hit, qualifies, Enemy.update, Enemy.is_off_screen, Bullet.update,
    Bullet.is_off_screen, Player.get_rect, Enemy.get_rect, Rect.colliderect, py_int,
    base_game, default_leaderboards, default_high_scores, Leaderboards.get,
    Leaderboards.set, HighScores.get, HighScores.set, spawn_enemy]

/-! ### C10: the NAME_ENTRY editor -/

/-- On the ASCII range the uppercase form of a character is always a
single character (the multi-character expansions of `py_upper_char` all
sit above ASCII). -/
theorem ascii_py_upper_char_single (c : Char) (h : c.toNat < 128) :
    (py_upper_char c).length = 1 := by
  unfold py_upper_char
  split_ifs with h1 h2 h3 h4 h5 h6 h7 h8 <;>
    first
      | rfl
      | (subst_vars; exact absurd h (by decide))

theorem run_aux_len_le10 (events : List KeyEvent) :
    ∀ s : String, s.length ≤ 10 →
      (∀ c, KeyEvent.ch c ∈ events → (py_upper_char c).length = 1) →
      (events.foldl name_entry_key s).length ≤ 10 := by
  induction events with
  | nil => intro s h _; exact h
  | cons e t ih =>
    intro s hs hsingle
    have hstep : (name_entry_key s e).length ≤ 10 := by
      cases e with
      | ret => exact hs
      | backspace =>
        show s.data.dropLast.length ≤ 10
        rw [List.length_dropLast]
        have h2 : s.data.length ≤ 10 := hs
        omega
      | ch c =>
        simp only [name_entry_key]
        split_ifs with hc
        · obtain ⟨h1, _⟩ := Bool.and_eq_true_iff.mp hc
          have hlt : s.data.length < 10 := of_decide_eq_true h1
          have hu : (py_upper_char c).length = 1 :=
            hsingle c (List.mem_cons_self _ _)
          show (s.data ++ py_upper_char c).length ≤ 10
          rw [List.length_append, hu]
          omega
        · exact hs
    exact ih _ hstep (fun c hc => hsingle c (List.mem_cons_of_mem e hc))

theorem run_aux_mem (events : List KeyEvent) :
    ∀ s : String, ∀ ch2 ∈ (events.foldl name_entry_key s).data,
      ch2 ∈ s.data ∨
        ∃ c, KeyEvent.ch c ∈ events ∧ py_is_printable c = true ∧ ch2 ∈ py_upper_char c := by
  induction events with
  | nil => intro s ch2 h; exact Or.inl h
  | cons e t ih =>
    intro s ch2 h
    rcases ih (name_entry_key s e) ch2 h with hmem | ⟨c, hc, hp, hcu⟩
    · cases e with
      | ret => exact Or.inl hmem
      | backspace => exact Or.inl ((List.dropLast_sublist _).subset hmem)
      | ch c =>
        revert hmem
        simp only [name_entry_key]
        split_ifs with hcond
        · intro hmem
          rcases List.mem_append.mp hmem with h1 | h1
          · exact Or.inl h1
          · obtain ⟨_, hp⟩ := Bool.and_eq_true_iff.mp hcond
            exact Or.inr ⟨c, List.mem_cons_self _ _, hp, h1⟩
        · intro hmem
          exact Or.inl hmem
    · exact Or.inr ⟨c, List.mem_cons_of_mem e hc, hp, hcu⟩

/-- C10 counterexample: nine ASCII letters followed by the printable
character `'ß'` (whose Python uppercase form is the two-character string
`"SS"`) leave the in-progress name at 11 characters, above the intended
cap of 10. -/
theorem name_entry_sharp_s_overflow :
    (run_name_entry
      (List.replicate 9 (KeyEvent.ch 'A') ++ [KeyEvent.ch 'ß'])).length = 11 := by
  decide

/-- C10 (amended): after any sequence of key events whose typed
characters are ASCII — the range on which the casing model is exact — the
in-progress name has length at most 10 and consists only of uppercase
forms of the printable characters typed, and backspace on the empty name
leaves it empty; for unrestricted input the length cap fails, because
Python's uppercase of a single printable character can be several
characters (see `name_entry_sharp_s_overflow`). -/
theorem name_entry_editor_invariant (events : List KeyEvent)
    (hascii : ∀ c, KeyEvent.ch c ∈ events → c.toNat < 128) :
    (run_name_entry events).length ≤ 10
    ∧ (∀ ch2 ∈ (run_name_entry events).data,
        ∃ c, KeyEvent.ch c ∈ events ∧ py_is_printable c = true ∧ ch2 ∈ py_upper_char c)
    ∧ name_entry_key ⟨[]⟩ KeyEvent.backspace = ⟨[]⟩ := by
  refine ⟨run_aux_len_le10 events ⟨[]⟩ (by decide)
    (fun c hc => ascii_py_upper_char_single c (hascii c hc)), ?_, rfl⟩
  intro ch2 h
  rcases run_aux_mem events ⟨[]⟩ ch2 h with h1 | h1
  · cases h1
  · exact h1

/-- Witness for `name_entry_editor_invariant` on a short ASCII session. -/
theorem name_entry_editor_invariant_witness :
    (run_name_entry [KeyEvent.ch 'a', KeyEvent.backspace, KeyEvent.ch 'b']).length ≤ 10 :=
  (name_entry_editor_invariant [KeyEvent.ch 'a', KeyEvent.backspace, KeyEvent.ch 'b']
    (by
      intro c hc
      simp only [List.mem_cons, List.not_mem_nil, or_false, reduceCtorEq,
        KeyEvent.ch.injEq, false_or] at hc
      rcases hc with rfl | rfl <;> decide)).1

end SpaceShooter
